import Mathlib

/-!
Verification development for the slurmctld request-processing subset
(`proc_req.c`, `slurm_protocol_defs.h`): the RPC dispatcher's telemetry
tables, the authorization gates of the individual RPC handlers, the
job/node state predicates, and the submit / allocate / completion reply
logic.  Each handler is embedded as a pure function of its inputs; the
results of callees that live outside this subset (job_mgr.c, step_mgr.c,
node_mgr.c, ...) are passed in as parameters, or, where a claim depends
on their behavior, modelled from the specification (such definitions say
so in their doc comment).
-/

namespace OStrich

/-- Modelled from the spec: the numeric error codes are declared in
`slurm/slurm_errno.h`, which is not part of this subset.  The handlers in
`proc_req.c` compare these codes only for equality, so only their pairwise
distinctness is relied upon; the particular numerals are immaterial.
`SLURM_ERROR` is `-1` in C and is rendered here as the sentinel `1`. -/
def SLURM_SUCCESS : Nat := 0

def SLURM_ERROR : Nat := 1

def EAGAIN : Nat := 11

def EINVAL : Nat := 22

def EINPROGRESS : Nat := 115

def SLURM_COMMUNICATIONS_SEND_ERROR : Nat := 1004

def ESLURM_USER_ID_MISSING : Nat := 2010

def ESLURM_DUPLICATE_JOB_ID : Nat := 2011

def ESLURM_REQUESTED_PART_CONFIG_UNAVAILABLE : Nat := 2015

def ESLURM_INVALID_NODE_NAME : Nat := 2018

def ESLURM_ALREADY_DONE : Nat := 2021

def ESLURM_CAN_NOT_START_IMMEDIATELY : Nat := 2033

def ESLURM_ACCESS_DENIED : Nat := 2036

def ESLURM_NODE_NOT_AVAIL : Nat := 2038

def ESLURM_NO_STEPS : Nat := 2042

def ESLURM_RESERVATION_BUSY : Nat := 2057

def ESLURM_RESERVATION_NOT_USABLE : Nat := 2058

def ESLURM_QOS_THRES : Nat := 2059

def ESLURM_JOB_HELD : Nat := 2062

def ESLURMD_CREDENTIAL_REVOKED : Nat := 4007

def ESLURMD_UID_NOT_FOUND : Nat := 4013

def ESLURMD_GID_NOT_FOUND : Nat := 4014

def ESLURMD_INVALID_ACCT_FREQ : Nat := 4038

/-- Modelled from the spec: message-type numbers live in the closed
enumeration of `slurm_protocol_defs.h` / `slurm.h` ranges (4001-series
allocation, 2001-series info, ...); only used as distinct tags here. -/
def RESPONSE_RESOURCE_ALLOCATION : Nat := 4002

def RESPONSE_SUBMIT_BATCH_JOB : Nat := 4004

def RESPONSE_CREATE_RESERVATION : Nat := 2051

def RESPONSE_STATS_INFO : Nat := 2027

/-- Modelled from the spec: `SLURM_BATCH_SCRIPT` is the step-id sentinel
from `slurm.h` (outside this subset) that a submit request carries in its
`job_id` field when it does not name an explicit job id. -/
def SLURM_BATCH_SCRIPT : Nat := 4294967294

/-- Modelled from the spec: admin levels from `slurmdb.h` (outside this
subset); only the ordering Operator < SuperUser matters. -/
def SLURMDB_ADMIN_OPERATOR : Nat := 2

def SLURMDB_ADMIN_SUPER_USER : Nat := 3

/-- Authorization environment of the controller: the uid the daemon runs
as (`getuid()`, i.e. the SlurmUser) and the accounting database's admin
level for each uid (`assoc_mgr_get_admin_level`). -/
structure AuthConfig where
  slurm_user_uid : Nat
  admin_level : Nat → Nat

/-- validate_slurm_user from proc_req.c: user root or SlurmUser. -/
def validate_slurm_user (c : AuthConfig) (uid : Nat) : Bool :=
  uid == 0 || uid == c.slurm_user_uid

/-- validate_super_user from proc_req.c: root, SlurmUser, or accounting
admin level at least SLURMDB_ADMIN_SUPER_USER. -/
def validate_super_user (c : AuthConfig) (uid : Nat) : Bool :=
  uid == 0 || uid == c.slurm_user_uid ||
    decide (SLURMDB_ADMIN_SUPER_USER ≤ c.admin_level uid)

/-- validate_operator from proc_req.c: root, SlurmUser, or accounting
admin level at least SLURMDB_ADMIN_OPERATOR. -/
def validate_operator (c : AuthConfig) (uid : Nat) : Bool :=
  uid == 0 || uid == c.slurm_user_uid ||
    decide (SLURMDB_ADMIN_OPERATOR ≤ c.admin_level uid)

/-- Compile-time build shape of the controller (`HAVE_ALPS_CRAY`,
`HAVE_FRONT_END`, `HAVE_BG`), rendered as runtime parameters of the
embedding so that every preprocessor branch of the source is present. -/
structure BuildConfig where
  alps_cray : Bool
  front_end : Bool
  bg : Bool

/-! ## Job and node state words (`slurm_protocol_defs.h` macros)

The `job_state` / `node_state` words are machine integers: a base state in
the low bits plus independent modifier-flag bits.  The macro layer below is
translated from `src/common/slurm_protocol_defs.h`; the numeric values of
the base states and flag bits come from `slurm.h`. -/

/-- Modelled from the spec: the numeric base-state values and flag bits of
`slurm.h` are outside this subset.  Base states are the enumeration order
of section 4.4 (`Pending = 0` ... `NodeFail = 7`), the base mask is the low
byte, and each modifier flag is a distinct bit outside the base mask. -/
def JOB_PENDING : Nat := 0

def JOB_RUNNING : Nat := 1

def JOB_SUSPENDED : Nat := 2

def JOB_COMPLETE : Nat := 3

def JOB_CANCELLED : Nat := 4

def JOB_FAILED : Nat := 5

def JOB_TIMEOUT : Nat := 6

def JOB_NODE_FAIL : Nat := 7

def JOB_STATE_BASE : Nat := 0xff

def JOB_COMPLETING : Nat := 0x8000

def JOB_CONFIGURING : Nat := 0x4000

def JOB_RESIZING : Nat := 0x2000

def JOB_REQUEUE : Nat := 0x1000

/-- IS_JOB_PENDING from slurm_protocol_defs.h. -/
def IS_JOB_PENDING (job_state : Nat) : Bool :=
  (job_state &&& JOB_STATE_BASE) == JOB_PENDING

/-- IS_JOB_COMPLETING from slurm_protocol_defs.h (C truthiness of the
masked flag bit). -/
def IS_JOB_COMPLETING (job_state : Nat) : Bool :=
  (job_state &&& JOB_COMPLETING) != 0

/-- IS_JOB_STARTED from slurm_protocol_defs.h. -/
def IS_JOB_STARTED (job_state : Nat) : Bool :=
  JOB_PENDING < (job_state &&& JOB_STATE_BASE)

/-- IS_JOB_FINISHED from slurm_protocol_defs.h. -/
def IS_JOB_FINISHED (job_state : Nat) : Bool :=
  JOB_SUSPENDED < (job_state &&& JOB_STATE_BASE)

/-- IS_JOB_COMPLETED from slurm_protocol_defs.h. -/
def IS_JOB_COMPLETED (job_state : Nat) : Bool :=
  IS_JOB_FINISHED job_state && ((job_state &&& JOB_COMPLETING) == 0)

/-- Modelled from the spec: node base-state values of `slurm.h` in the
enumeration order of section 4.4, low-nibble base mask, and distinct flag
bits outside the base mask. -/
def NODE_STATE_UNKNOWN : Nat := 0

def NODE_STATE_DOWN : Nat := 1

def NODE_STATE_IDLE : Nat := 2

def NODE_STATE_ALLOCATED : Nat := 3

def NODE_STATE_ERROR : Nat := 4

def NODE_STATE_MIXED : Nat := 5

def NODE_STATE_FUTURE : Nat := 6

def NODE_STATE_BASE : Nat := 0xf

def NODE_STATE_CLOUD : Nat := 0x80

def NODE_STATE_DRAIN : Nat := 0x200

def NODE_STATE_COMPLETING : Nat := 0x400

def NODE_STATE_NO_RESPOND : Nat := 0x800

def NODE_STATE_POWER_SAVE : Nat := 0x1000

def NODE_STATE_FAIL : Nat := 0x2000

def NODE_STATE_POWER_UP : Nat := 0x4000

def NODE_STATE_MAINT : Nat := 0x8000

/-- IS_NODE_ALLOCATED from slurm_protocol_defs.h. -/
def IS_NODE_ALLOCATED (node_state : Nat) : Bool :=
  (node_state &&& NODE_STATE_BASE) == NODE_STATE_ALLOCATED

/-- IS_NODE_ERROR from slurm_protocol_defs.h. -/
def IS_NODE_ERROR (node_state : Nat) : Bool :=
  (node_state &&& NODE_STATE_BASE) == NODE_STATE_ERROR

/-- IS_NODE_MIXED from slurm_protocol_defs.h. -/
def IS_NODE_MIXED (node_state : Nat) : Bool :=
  (node_state &&& NODE_STATE_BASE) == NODE_STATE_MIXED

/-- IS_NODE_DRAIN from slurm_protocol_defs.h. -/
def IS_NODE_DRAIN (node_state : Nat) : Bool :=
  (node_state &&& NODE_STATE_DRAIN) != 0

/-- IS_NODE_DRAINING from slurm_protocol_defs.h. -/
def IS_NODE_DRAINING (node_state : Nat) : Bool :=
  ((node_state &&& NODE_STATE_DRAIN) != 0) &&
    (IS_NODE_ALLOCATED node_state || IS_NODE_ERROR node_state ||
      IS_NODE_MIXED node_state)

/-- IS_NODE_DRAINED from slurm_protocol_defs.h. -/
def IS_NODE_DRAINED (node_state : Nat) : Bool :=
  IS_NODE_DRAIN node_state && !(IS_NODE_DRAINING node_state)

/-- Abstract job base state, in the enumeration order of section 4.4. -/
inductive JobBase where
  | pending
  | running
  | suspended
  | complete
  | cancelled
  | failed
  | timeout
  | node_fail
deriving DecidableEq, Fintype

/-- Numeric value of a job base state. -/
def JobBase.toNat : JobBase → Nat
  | .pending => JOB_PENDING
  | .running => JOB_RUNNING
  | .suspended => JOB_SUSPENDED
  | .complete => JOB_COMPLETE
  | .cancelled => JOB_CANCELLED
  | .failed => JOB_FAILED
  | .timeout => JOB_TIMEOUT
  | .node_fail => JOB_NODE_FAIL

/-- Encode a job base state plus the four modifier flags into the
`job_state` word: base in the low byte, each flag its own bit. -/
def encode_job_state (b : JobBase) (completing configuring resizing requeue : Bool) : Nat :=
  b.toNat + (if completing then JOB_COMPLETING else 0) +
    (if configuring then JOB_CONFIGURING else 0) +
    (if resizing then JOB_RESIZING else 0) +
    (if requeue then JOB_REQUEUE else 0)

/-- Spec-level Started predicate: the base state lies strictly after
Pending in the enumeration of section 4.4. -/
def spec_job_started (b : JobBase) : Bool := b != .pending

/-- Spec-level Finished predicate: the base state lies strictly after
Suspended in the enumeration of section 4.4. -/
def spec_job_finished (b : JobBase) : Bool :=
  b == .complete || b == .cancelled || b == .failed || b == .timeout ||
    b == .node_fail

/-- Spec-level Completed predicate: Finished with the Completing modifier
flag clear. -/
def spec_job_completed (b : JobBase) (completing : Bool) : Bool :=
  spec_job_finished b && !completing

/-- Abstract node base state, in the enumeration order of section 4.4. -/
inductive NodeBase where
  | unknown
  | down
  | idle
  | allocated
  | error
  | mixed
  | future
deriving DecidableEq, Fintype

/-- Numeric value of a node base state. -/
def NodeBase.toNat : NodeBase → Nat
  | .unknown => NODE_STATE_UNKNOWN
  | .down => NODE_STATE_DOWN
  | .idle => NODE_STATE_IDLE
  | .allocated => NODE_STATE_ALLOCATED
  | .error => NODE_STATE_ERROR
  | .mixed => NODE_STATE_MIXED
  | .future => NODE_STATE_FUTURE

/-- Encode a node base state plus modifier flags into the `node_state`
word. -/
def encode_node_state (b : NodeBase)
    (drain completing no_respond power_save fail maint power_up cloud : Bool) : Nat :=
  b.toNat + (if drain then NODE_STATE_DRAIN else 0) +
    (if completing then NODE_STATE_COMPLETING else 0) +
    (if no_respond then NODE_STATE_NO_RESPOND else 0) +
    (if power_save then NODE_STATE_POWER_SAVE else 0) +
    (if fail then NODE_STATE_FAIL else 0) +
    (if maint then NODE_STATE_MAINT else 0) +
    (if power_up then NODE_STATE_POWER_UP else 0) +
    (if cloud then NODE_STATE_CLOUD else 0)

/-- Spec-level Draining predicate: Drain flag set with base state
Allocated, Error, or Mixed. -/
def spec_node_draining (b : NodeBase) (drain : Bool) : Bool :=
  drain && (b == .allocated || b == .error || b == .mixed)

/-- Spec-level Drained predicate: Drain flag set and not Draining. -/
def spec_node_drained (b : NodeBase) (drain : Bool) : Bool :=
  drain && !(spec_node_draining b drain)

/-! ## RPC telemetry (`slurmctld_req`, `_clear_rpc_stats`, `_pack_rpc_stats`)

Six parallel slot arrays guarded by `rpc_mutex`: per-request-type id /
count / cumulative-time arrays of length 100 and per-user arrays of
length 200, zero-initialized at first use. -/

/-- The telemetry tables: `rpc_type_id` / `rpc_type_cnt` / `rpc_type_time`
and `rpc_user_id` / `rpc_user_cnt` / `rpc_user_time`. -/
structure RpcStats where
  type_id : List Nat
  type_cnt : List Nat
  type_time : List Nat
  user_id : List Nat
  user_cnt : List Nat
  user_time : List Nat
deriving DecidableEq

/-- rpc_type_size: "Capture info for first 100 RPC types". -/
def rpc_type_size : Nat := 100

/-- rpc_user_size: "Capture info for first 200 RPC users". -/
def rpc_user_size : Nat := 200

/-- The freshly xmalloc-ed (zeroed) tables of the first `slurmctld_req`
invocation. -/
def init_rpc_stats : RpcStats where
  type_id := List.replicate rpc_type_size 0
  type_cnt := List.replicate rpc_type_size 0
  type_time := List.replicate rpc_type_size 0
  user_id := List.replicate rpc_user_size 0
  user_cnt := List.replicate rpc_user_size 0
  user_time := List.replicate rpc_user_size 0

/-- The per-type slot scan of `slurmctld_req`: walk the id array; an empty
slot (id 0) is claimed for the incoming type, a slot holding the type
matches, any other slot is skipped; past the end no slot is assigned.
Returns the updated id array and the matched slot's index. -/
def scan_type_slot : List Nat → Nat → List Nat × Option Nat
  | [], _ => ([], none)
  | x :: xs, t =>
    if x = 0 then (t :: xs, some 0)
    else if x ≠ t then
      let p := scan_type_slot xs t
      (x :: p.1, p.2.map (· + 1))
    else (x :: xs, some 0)

/-- The per-user slot scan of `slurmctld_req`, threading the absolute slot
index: an empty slot is claimed only when its index is nonzero
(`(rpc_user_id[i] == 0) && (i != 0)`); a slot holding the uid matches. -/
def scan_user_slot : List Nat → Nat → Nat → List Nat × Option Nat
  | [], _, _ => ([], none)
  | x :: xs, u, i =>
    if x = 0 ∧ i ≠ 0 then (u :: xs, some i)
    else if x ≠ u then
      let p := scan_user_slot xs u (i + 1)
      (x :: p.1, p.2)
    else (x :: xs, some i)

/-- Add `d` to entry `i` of a slot array (`rpc_..._cnt[i]++`,
`rpc_..._time[i] += DELTA_TIMER`). -/
def bump_slot (l : List Nat) (i d : Nat) : List Nat :=
  l.set i (l.getD i 0 + d)

/-- The telemetry effect of one `slurmctld_req` invocation: both slot
scans before dispatch, then, for each table whose scan produced an index,
one count increment and the measured latency added; a scan that found no
slot (table full, no match) leaves its table's counters untouched. -/
def record_rpc (st : RpcStats) (msg_type rpc_uid delta : Nat) : RpcStats :=
  let ts := scan_type_slot st.type_id msg_type
  let us := scan_user_slot st.user_id rpc_uid 0
  { type_id := ts.1
    type_cnt := match ts.2 with
      | some i => bump_slot st.type_cnt i 1
      | none => st.type_cnt
    type_time := match ts.2 with
      | some i => bump_slot st.type_time i delta
      | none => st.type_time
    user_id := us.1
    user_cnt := match us.2 with
      | some i => bump_slot st.user_cnt i 1
      | none => st.user_cnt
    user_time := match us.2 with
      | some i => bump_slot st.user_time i delta
      | none => st.user_time }

/-- _clear_rpc_stats: zero every entry (id, count, time) of both tables. -/
def clear_rpc_stats (st : RpcStats) : RpcStats where
  type_id := st.type_id.map fun _ => 0
  type_cnt := st.type_cnt.map fun _ => 0
  type_time := st.type_time.map fun _ => 0
  user_id := st.user_id.map fun _ => 0
  user_cnt := st.user_cnt.map fun _ => 0
  user_time := st.user_time.map fun _ => 0

/-- Length of the leading run of nonzero entries: the index at which the
`if (rpc_..._id[i] == 0) break;` counting loops of `_pack_rpc_stats`
stop. -/
def leading_nonzero : List Nat → Nat
  | [] => 0
  | x :: xs => if x = 0 then 0 else leading_nonzero xs + 1

/-- The element count the type-table serializer packs: its counting loop
starts at index 0. -/
def pack_type_count (st : RpcStats) : Nat :=
  leading_nonzero st.type_id

/-- The element count the user-table serializer packs: its counting loop
starts at index 1, so slot 0 (whose id is never written) always counts as
occupied. -/
def pack_user_count (st : RpcStats) : Nat :=
  1 + leading_nonzero (st.user_id.drop 1)

/-- Modelled from the spec: `pack32_array` / `pack64_array` /
`pack16_array` live in `src/common/pack.c`, outside this subset.  Per the
dump description of section 4.12 they serialize the leading `size_val`
elements of the given array, starting at its first element. -/
def pack_array (l : List Nat) (size_val : Nat) : List Nat :=
  l.take size_val

/-- The per-user part of `_pack_rpc_stats`: uid, count and time arrays,
each truncated to `pack_user_count` elements from index 0. -/
def packed_user_stats (st : RpcStats) : List Nat × List Nat × List Nat :=
  (pack_array st.user_id (pack_user_count st),
   pack_array st.user_cnt (pack_user_count st),
   pack_array st.user_time (pack_user_count st))

/-! ## Responses -/

/-- One message sent back on the request's connection: either a typed
success payload (`slurm_send_node_msg`, carrying here its message type and
the attached `error_code` field where the payload has one) or a
return-code message (`slurm_send_rc_msg` / `slurm_send_rc_err_msg`). -/
inductive Sent where
  | payload (msg_type : Nat) (error_code : Nat)
  | rc (code : Nat)
  | rc_err (code : Nat)
deriving DecidableEq

/-- _slurm_rpc_dump_stats result: the reply and the state of the telemetry
tables afterwards.  `performed_reset` records whether `reset_stats` /
`_clear_rpc_stats` ran. -/
structure DumpStatsOut where
  sent : Option Sent
  stats : RpcStats
  performed_reset : Bool
deriving DecidableEq

/-- _slurm_rpc_dump_stats: a reset command from a caller that is not the
slurm user is refused with ESLURM_ACCESS_DENIED and changes nothing; an
authorized reset clears both telemetry tables; either way a non-refused
request is answered with the packed statistics payload. -/
def rpc_dump_stats (c : AuthConfig) (uid : Nat) (command_reset : Bool)
    (st : RpcStats) : DumpStatsOut :=
  if command_reset ∧ ¬ validate_slurm_user c uid then
    { sent := some (Sent.rc ESLURM_ACCESS_DENIED), stats := st
      performed_reset := false }
  else if command_reset then
    { sent := some (Sent.payload RESPONSE_STATS_INFO 0)
      stats := clear_rpc_stats st, performed_reset := true }
  else
    { sent := some (Sent.payload RESPONSE_STATS_INFO 0), stats := st
      performed_reset := false }

/-! ## Job submission and allocation (`_slurm_rpc_submit_batch_job`,
`_slurm_rpc_allocate_resources`) -/

/-- A job record created by the allocation path, as far as the handlers
observe it: its id, base state and the reason code attached while it
waits. -/
structure CreatedJob where
  job_id : Nat
  state : JobBase
  reason : Nat
deriving DecidableEq

/-- Outcome of the scheduler's node-selection attempt for a new job,
an input of the (modelled) allocation routine. -/
inductive SelectionResult where
  | placed
  | infeasible (reason : Nat)
deriving DecidableEq

/-- Modelled from the spec: `job_allocate` lives in `job_mgr.c`, which is
not part of this subset.  Per sections 4.6 and 7: the request inserts a
job in Pending and placement is attempted; on success the job starts
Running; "If selection fails and `immediate` is set, fail with
`CanNotStartImmediately`" with no job record kept (scenario S4), "otherwise
leave the job Pending and set a reason code".  The created job's id is the
explicitly requested one when the request names one (the submit handler's
re-use comments), else freshly issued — both arrive here as `jid`. -/
def job_allocate (immediate : Bool) (sel : SelectionResult) (jid : Nat) :
    Nat × Option CreatedJob :=
  match sel with
  | .placed => (SLURM_SUCCESS, some ⟨jid, JobBase.running, 0⟩)
  | .infeasible e =>
    if immediate then (ESLURM_CAN_NOT_START_IMMEDIATELY, none)
    else (e, some ⟨jid, JobBase.pending, e⟩)

/-- The "job can wait" test both handlers apply to the allocation return
code: the five transient capacity errors that leave the job Pending. -/
def job_waiting_rc (rc : Nat) : Bool :=
  rc == ESLURM_REQUESTED_PART_CONFIG_UNAVAILABLE ||
    rc == ESLURM_RESERVATION_NOT_USABLE || rc == ESLURM_QOS_THRES ||
    rc == ESLURM_NODE_NOT_AVAIL || rc == ESLURM_JOB_HELD

/-- What `find_job_record` tells the submit handler about an existing
record under the requested explicit job id. -/
structure ExistingJob where
  user_id : Nat
  finished : Bool
  completing : Bool
  prolog_running : Bool
deriving DecidableEq

/-- Result of the batch-submit handler: the reply sent, the job created by
the allocation path (if any), and whether the request was served by
launching a batch step inside an existing allocation. -/
structure SubmitOut where
  sent : Option Sent
  created : Option CreatedJob
  step_launched : Bool
deriving DecidableEq

/-- The "Create new job allocation" tail of `_slurm_rpc_submit_batch_job`:
call `job_allocate`, rewrite any failure of an immediate request to
`ESLURM_CAN_NOT_START_IMMEDIATELY`, then reply with the submit payload
(job id plus the return code as its `error_code`) when the code is success
or one of the five transient capacity errors, and with a return-code
message otherwise. -/
def submit_create_new (explicit_id : Option Nat) (immediate : Bool)
    (sel : SelectionResult) (new_id : Nat) : SubmitOut :=
  let r := job_allocate immediate sel (explicit_id.getD new_id)
  let rc := if immediate ∧ r.1 ≠ SLURM_SUCCESS
    then ESLURM_CAN_NOT_START_IMMEDIATELY else r.1
  if rc ≠ SLURM_SUCCESS ∧ ¬ (rc = ESLURM_JOB_HELD ∨
      rc = ESLURM_NODE_NOT_AVAIL ∨ rc = ESLURM_QOS_THRES ∨
      rc = ESLURM_RESERVATION_NOT_USABLE ∨
      rc = ESLURM_REQUESTED_PART_CONFIG_UNAVAILABLE) then
    { sent := some (Sent.rc rc), created := r.2, step_launched := false }
  else
    { sent := some (Sent.payload RESPONSE_SUBMIT_BATCH_JOB rc)
      created := r.2, step_launched := false }

/-- _slurm_rpc_submit_batch_job.  Inputs beyond the message fields:
`existing` is the `find_job_record` result for an explicitly named job id,
`validate_rc` the `validate_job_create_req` result, `launch_rc` the
`_launch_batch_step` result, `sel` the node-selection outcome inside
`job_allocate`, and `new_id` the id C1 would issue for a fresh job. -/
def rpc_submit_batch_job (bc : BuildConfig) (c : AuthConfig) (uid : Nat)
    (desc_user_id : Nat) (alloc_node_ok : Bool) (validate_rc : Nat)
    (explicit_id : Option Nat) (existing : Option ExistingJob)
    (launch_rc : Nat) (immediate : Bool) (sel : SelectionResult)
    (new_id : Nat) : SubmitOut :=
  let ec := if uid ≠ desc_user_id ∧ ¬ validate_super_user c uid
    then ESLURM_USER_ID_MISSING else SLURM_SUCCESS
  let ec := if ¬ alloc_node_ok then ESLURM_INVALID_NODE_NAME else ec
  let ec := if ec = SLURM_SUCCESS then validate_rc else ec
  if ec ≠ SLURM_SUCCESS then
    { sent := some (Sent.rc ec), created := none, step_launched := false }
  else
    -- the `job_ptr` computed from the explicit id: an unfinished record
    -- is an active allocation; a finished one still Completing is a
    -- duplicate-id error; a finished, no-longer-Completing one is
    -- dropped ("OK to re-use job id").
    match explicit_id, existing with
    | some jid, some j =>
      if j.finished then
        if j.completing then
          { sent := some (Sent.rc ESLURM_DUPLICATE_JOB_ID), created := none
            step_launched := false }
        else
          submit_create_new (some jid) immediate sel new_id
      else
        -- active job allocation: launch a batch step inside it
        if bc.front_end ∧ ¬ bc.bg ∧ ¬ bc.alps_cray ∧
            ¬ validate_slurm_user c uid then
          { sent := some (Sent.rc ESLURM_NO_STEPS), created := none
            step_launched := false }
        else if j.user_id ≠ uid then
          { sent := some (Sent.rc ESLURM_USER_ID_MISSING), created := none
            step_launched := false }
        else if j.prolog_running then
          { sent := some (Sent.rc EAGAIN), created := none
            step_launched := false }
        else if launch_rc ≠ SLURM_SUCCESS then
          { sent := some (Sent.rc launch_rc), created := none
            step_launched := false }
        else
          { sent := some (Sent.payload RESPONSE_SUBMIT_BATCH_JOB SLURM_SUCCESS)
            created := none, step_launched := true }
    | some jid, none => submit_create_new (some jid) immediate sel new_id
    | none, _ => submit_create_new none immediate sel new_id

/-- Result of the allocate handler: the reply sent and the job created by
the allocation path (if any). -/
structure AllocateOut where
  sent : Option Sent
  created : Option CreatedJob
deriving DecidableEq

/-- The "return result" tail of `_slurm_rpc_allocate_resources`: a success
payload (with the return code attached as `alloc_msg.error_code`) when the
code is success, or when the request is not immediate and the code is one
of the five transient capacity errors; a return-code message otherwise. -/
def allocate_reply (immediate : Bool) (rc : Nat) (job : Option CreatedJob) :
    AllocateOut :=
  if rc = SLURM_SUCCESS ∨ (¬ immediate ∧ job_waiting_rc rc) then
    { sent := some (Sent.payload RESPONSE_RESOURCE_ALLOCATION rc)
      created := job }
  else { sent := some (Sent.rc rc), created := none }

/-- _slurm_rpc_allocate_resources.  `peer_ok` is whether
`slurm_get_peer_addr` succeeded, `errno_val` the C `errno` consulted when
it did not, `session_in_use` the ALPS-only `allocated_session_in_use`
test, `sel` the node-selection outcome inside `job_allocate`. -/
def rpc_allocate_resources (bc : BuildConfig) (c : AuthConfig) (uid : Nat)
    (desc_user_id : Nat) (alloc_node_ok : Bool) (validate_rc : Nat)
    (session_in_use : Bool) (peer_ok : Bool) (errno_val : Nat)
    (immediate : Bool) (sel : SelectionResult) (new_id : Nat) : AllocateOut :=
  let ec := if uid ≠ desc_user_id ∧ ¬ validate_slurm_user c uid
    then ESLURM_USER_ID_MISSING else SLURM_SUCCESS
  let ec := if ¬ alloc_node_ok then ESLURM_INVALID_NODE_NAME else ec
  let ec := if ec = SLURM_SUCCESS then validate_rc else ec
  let ec := if bc.alps_cray ∧ session_in_use
    then ESLURM_RESERVATION_BUSY else ec
  if peer_ok then
    if ec = SLURM_SUCCESS then
      let r := job_allocate immediate sel new_id
      allocate_reply immediate r.1 r.2
    else allocate_reply immediate ec none
  else if errno_val ≠ 0 then allocate_reply immediate errno_val none
  else allocate_reply immediate SLURM_ERROR none

/-! ## Batch completion (`_slurm_rpc_complete_batch_script`) -/

/-- What the batch-complete handler reads from the job record it looked
up: whether `job_ptr->details` exists and its `requeue` flag. -/
structure BatchJobView where
  has_details : Bool
  details_requeue : Bool
deriving DecidableEq

/-- Observable effect of `_slurm_rpc_complete_batch_script`:  whether the
caller was turned away, the `comp_msg->slurm_rc` value after the
transient-error rewrite, whether `drain_nodes` was invoked on the
reporting node (and `update_front_end` with the Drain state on a
front-end build) together with the drain reason, the `job_requeue` flag
handed to `job_complete`, and whether `job_complete` ran at all. -/
structure BatchCompleteOut where
  sent : Option Sent
  treated_slurm_rc : Nat
  drained_node : Bool
  drained_front_end : Bool
  drain_reason : Option String
  job_requeue : Bool
  called_job_complete : Bool
deriving DecidableEq

/-- The tail of `_slurm_rpc_complete_batch_script` after the slurmd-code
classification: `job_complete` runs, and the reply is a return-code
message when an error survived, a success path otherwise. -/
def batch_complete_finish (treated_rc : Nat) (drained drained_fe : Bool)
    (reason : Option String) (requeue : Bool) (job_complete_rc : Nat) :
    BatchCompleteOut :=
  { sent := some (if job_complete_rc ≠ SLURM_SUCCESS
      then Sent.rc job_complete_rc else Sent.rc SLURM_SUCCESS)
    treated_slurm_rc := treated_rc
    drained_node := drained
    drained_front_end := drained_fe
    drain_reason := reason
    job_requeue := requeue
    called_job_complete := true }

/-- _slurm_rpc_complete_batch_script.  A non-slurm-user caller is rejected
before any locks are taken, with no reply.  A report from the wrong node
is acknowledged with the (still successful) return code and ignored.
Otherwise the slurmd return code is classified: `ESLURM_ALREADY_DONE` and
`ESLURMD_CREDENTIAL_REVOKED` are rewritten to success; on an ALPS build
`ESLURM_RESERVATION_NOT_USABLE` requests a requeue; the five
communication/identity errors are only logged; every other nonzero code
drains the reporting entity with reason "batch job complete failure"
(via `drain_nodes`, or `update_front_end` on a front-end build, or a
block-error update on BlueGene where no node is drained) and requests a
requeue when the script's own return code is nonzero and the job's
details permit it.  `job_complete` then runs with the accumulated requeue
flag. -/
def rpc_complete_batch_script (bc : BuildConfig) (c : AuthConfig)
    (uid : Nat) (wrong_node : Bool) (job : Option BatchJobView)
    (slurm_rc job_rc : Nat) (job_complete_rc : Nat) : BatchCompleteOut :=
  if ¬ validate_slurm_user c uid then
    { sent := none, treated_slurm_rc := slurm_rc, drained_node := false
      drained_front_end := false, drain_reason := none, job_requeue := false
      called_job_complete := false }
  else if wrong_node then
    { sent := some (Sent.rc SLURM_SUCCESS), treated_slurm_rc := slurm_rc
      drained_node := false, drained_front_end := false, drain_reason := none
      job_requeue := false, called_job_complete := false }
  else if slurm_rc = ESLURM_ALREADY_DONE ∨
      slurm_rc = ESLURMD_CREDENTIAL_REVOKED then
    batch_complete_finish SLURM_SUCCESS false false none false job_complete_rc
  else if bc.alps_cray ∧ slurm_rc = ESLURM_RESERVATION_NOT_USABLE then
    batch_complete_finish slurm_rc false false none true job_complete_rc
  else if slurm_rc = SLURM_COMMUNICATIONS_SEND_ERROR ∨
      slurm_rc = ESLURM_USER_ID_MISSING ∨
      slurm_rc = ESLURMD_UID_NOT_FOUND ∨
      slurm_rc = ESLURMD_GID_NOT_FOUND ∨
      slurm_rc = ESLURMD_INVALID_ACCT_FREQ then
    batch_complete_finish slurm_rc false false none false job_complete_rc
  else if slurm_rc ≠ SLURM_SUCCESS then
    let requeue := decide (job_rc ≠ SLURM_SUCCESS) &&
      (match job with
        | some j => j.has_details && j.details_requeue
        | none => false)
    if bc.bg then
      batch_complete_finish slurm_rc false false none requeue job_complete_rc
    else if bc.front_end then
      batch_complete_finish slurm_rc false true
        (some "batch job complete failure") requeue job_complete_rc
    else
      batch_complete_finish slurm_rc true false
        (some "batch job complete failure") requeue job_complete_rc
  else
    batch_complete_finish slurm_rc false false none false job_complete_rc

/-! ## Node-origin and administrative handlers -/

/-- Reply of `_slurm_rpc_ping`: no authentication ("We could authenticate
here, if desired"), unconditional success return code, no state change. -/
structure PingOut where
  sent : Option Sent
deriving DecidableEq

/-- _slurm_rpc_ping. -/
def rpc_ping (_uid : Nat) : PingOut :=
  { sent := some (Sent.rc SLURM_SUCCESS) }

/-- Effect of `_slurm_rpc_epilog_complete`: whether `job_epilog_complete`
ran; the handler never sends a reply ("NOTE: RPC has no response"). -/
structure EpilogCompleteOut where
  sent : Option Sent
  called_job_epilog_complete : Bool
deriving DecidableEq

/-- _slurm_rpc_epilog_complete: a non-slurm-user caller is turned away
with no reply and no state change; an authorized message is applied via
`job_epilog_complete`; no reply is sent in either case. -/
def rpc_epilog_complete (c : AuthConfig) (uid : Nat) : EpilogCompleteOut :=
  if ¬ validate_slurm_user c uid then
    { sent := none, called_job_epilog_complete := false }
  else
    { sent := none, called_job_epilog_complete := true }

/-- Effect of `_slurm_rpc_node_registration`: whether the validation of
the node's self-report (`validate_jobs_on_node` / `validate_node_specs`)
ran, and the reply. -/
structure RegistrationOut where
  sent : Option Sent
  called_validate_node : Bool
deriving DecidableEq

/-- _slurm_rpc_node_registration: a non-slurm-user caller receives
ESLURM_USER_ID_MISSING and nothing runs; otherwise the report is
validated (`validate_rc` is that callee's result) and the outcome is
returned as a return code. -/
def rpc_node_registration (c : AuthConfig) (uid : Nat) (validate_rc : Nat) :
    RegistrationOut :=
  if ¬ validate_slurm_user c uid then
    { sent := some (Sent.rc ESLURM_USER_ID_MISSING)
      called_validate_node := false }
  else if validate_rc ≠ SLURM_SUCCESS then
    { sent := some (Sent.rc validate_rc), called_validate_node := true }
  else
    { sent := some (Sent.rc SLURM_SUCCESS), called_validate_node := true }

/-- Reply of `_slurm_rpc_step_complete`: every path answers with a return
code.  `step_comp_rc` and `rem` are `step_partial_comp`'s outputs,
`finish_rc` the `job_complete` / `job_step_complete` result. -/
structure StepCompleteOut where
  sent : Option Sent
deriving DecidableEq

/-- _slurm_rpc_step_complete. -/
def rpc_step_complete (step_comp_rc rem : Nat) (_batch_script : Bool)
    (finish_rc : Nat) : StepCompleteOut :=
  if step_comp_rc ≠ 0 ∨ rem ≠ 0 then
    { sent := some (Sent.rc step_comp_rc) }
  else if finish_rc ≠ SLURM_SUCCESS then
    { sent := some (Sent.rc finish_rc) }
  else
    { sent := some (Sent.rc SLURM_SUCCESS) }

/-- Common shape of the authorization-gated administrative handlers: the
reply and whether the guarded mutating call ran. -/
structure GatedOut where
  sent : Option Sent
  executed : Bool
deriving DecidableEq

/-- _slurm_rpc_reconfigure_controller: requires super-user; an in-progress
reconfiguration or shutdown yields EINPROGRESS; otherwise
`read_slurm_conf` runs (its result is `read_conf_rc`) and the outcome is
returned. -/
def rpc_reconfigure_controller (c : AuthConfig) (uid : Nat)
    (in_progress shutdown_in_progress : Bool) (read_conf_rc : Nat) :
    GatedOut :=
  let ec := if ¬ validate_super_user c uid
    then ESLURM_USER_ID_MISSING else SLURM_SUCCESS
  let ec := if in_progress ∨ shutdown_in_progress then EINPROGRESS else ec
  if ec ≠ SLURM_SUCCESS then { sent := some (Sent.rc ec), executed := false }
  else if read_conf_rc ≠ SLURM_SUCCESS then
    { sent := some (Sent.rc read_conf_rc), executed := true }
  else { sent := some (Sent.rc SLURM_SUCCESS), executed := true }

/-- _slurm_rpc_shutdown_controller: requires super-user; an authorized
request performs the shutdown / resume-control actions and the return
code is echoed back in every case. -/
def rpc_shutdown_controller (c : AuthConfig) (uid : Nat) : GatedOut :=
  if ¬ validate_super_user c uid then
    { sent := some (Sent.rc ESLURM_USER_ID_MISSING), executed := false }
  else { sent := some (Sent.rc SLURM_SUCCESS), executed := true }

/-- _slurm_rpc_shutdown_controller_immediate: requires super-user, but its
body is a no-op ("just used to knock loose accept RPC thread") and no
reply is ever sent. -/
def rpc_shutdown_controller_immediate (c : AuthConfig) (uid : Nat) :
    GatedOut :=
  if ¬ validate_super_user c uid then { sent := none, executed := false }
  else { sent := none, executed := false }

/-- _slurm_rpc_update_node: requires super-user; `update_rc` is the
`update_node` callee's result. -/
def rpc_update_node (c : AuthConfig) (uid : Nat) (update_rc : Nat) :
    GatedOut :=
  if ¬ validate_super_user c uid then
    { sent := some (Sent.rc ESLURM_USER_ID_MISSING), executed := false }
  else if update_rc ≠ SLURM_SUCCESS then
    { sent := some (Sent.rc update_rc), executed := true }
  else { sent := some (Sent.rc SLURM_SUCCESS), executed := true }

/-- _slurm_rpc_update_partition: requires super-user; serves both the
partition-create and partition-update message types through `update_part`
(result `update_rc`). -/
def rpc_update_partition (c : AuthConfig) (uid : Nat) (update_rc : Nat) :
    GatedOut :=
  if ¬ validate_super_user c uid then
    { sent := some (Sent.rc ESLURM_USER_ID_MISSING), executed := false }
  else if update_rc ≠ SLURM_SUCCESS then
    { sent := some (Sent.rc update_rc), executed := true }
  else { sent := some (Sent.rc SLURM_SUCCESS), executed := true }

/-- _slurm_rpc_delete_partition: requires super-user; `delete_rc` is the
`delete_partition` callee's result. -/
def rpc_delete_partition (c : AuthConfig) (uid : Nat) (delete_rc : Nat) :
    GatedOut :=
  if ¬ validate_super_user c uid then
    { sent := some (Sent.rc ESLURM_USER_ID_MISSING), executed := false }
  else if delete_rc ≠ SLURM_SUCCESS then
    { sent := some (Sent.rc delete_rc), executed := true }
  else { sent := some (Sent.rc SLURM_SUCCESS), executed := true }

/-- _slurm_rpc_resv_create: gated by `validate_operator` (not
super-user); on success the reservation's name is returned in a
RESPONSE_CREATE_RESERVATION payload. -/
def rpc_resv_create (c : AuthConfig) (uid : Nat) (create_rc : Nat) :
    GatedOut :=
  if ¬ validate_operator c uid then
    { sent := some (Sent.rc ESLURM_USER_ID_MISSING), executed := false }
  else if create_rc ≠ SLURM_SUCCESS then
    { sent := some (Sent.rc create_rc), executed := true }
  else
    { sent := some (Sent.payload RESPONSE_CREATE_RESERVATION 0)
      executed := true }

/-- _slurm_rpc_resv_update: gated by `validate_operator`. -/
def rpc_resv_update (c : AuthConfig) (uid : Nat) (update_rc : Nat) :
    GatedOut :=
  if ¬ validate_operator c uid then
    { sent := some (Sent.rc ESLURM_USER_ID_MISSING), executed := false }
  else if update_rc ≠ SLURM_SUCCESS then
    { sent := some (Sent.rc update_rc), executed := true }
  else { sent := some (Sent.rc SLURM_SUCCESS), executed := true }

/-- _slurm_rpc_resv_delete: gated by `validate_operator`. -/
def rpc_resv_delete (c : AuthConfig) (uid : Nat) (delete_rc : Nat) :
    GatedOut :=
  if ¬ validate_operator c uid then
    { sent := some (Sent.rc ESLURM_USER_ID_MISSING), executed := false }
  else if delete_rc ≠ SLURM_SUCCESS then
    { sent := some (Sent.rc delete_rc), executed := true }
  else { sent := some (Sent.rc SLURM_SUCCESS), executed := true }

/-- The `default:` arm of the `slurmctld_req` dispatch switch: an unknown
message type is answered with EINVAL. -/
def dispatcher_unknown_reply : Option Sent :=
  some (Sent.rc EINVAL)

/-! ## Concrete scenarios used by witnesses and counterexamples -/

/-- A sample authorization environment: the daemon runs as uid 64030;
uid 500 is registered in the accounting database as an Operator; everyone
else is a plain user. -/
def example_cfg : AuthConfig where
  slurm_user_uid := 64030
  admin_level := fun u => if u = 500 then SLURMDB_ADMIN_OPERATOR else 0

/-- The default build: no ALPS Cray, no front end, no BlueGene. -/
def std_build : BuildConfig where
  alps_cray := false
  front_end := false
  bg := false

/-- The ALPS Cray build (the configuration whose batch-complete behavior
section 4.8 describes). -/
def alps_build : BuildConfig where
  alps_cray := true
  front_end := false
  bg := false

/-- Structural well-formedness of the telemetry tables: each slot array
has its declared capacity. -/
def stats_wf (st : RpcStats) : Prop :=
  st.type_id.length = rpc_type_size ∧ st.type_cnt.length = rpc_type_size ∧
  st.type_time.length = rpc_type_size ∧
  st.user_id.length = rpc_user_size ∧ st.user_cnt.length = rpc_user_size ∧
  st.user_time.length = rpc_user_size

/-- A saturated telemetry state: every type slot holds a distinct nonzero
type, every user slot except the never-assigned slot 0 holds a distinct
nonzero uid, with some accumulated counters. -/
def full_stats : RpcStats where
  type_id := (List.range rpc_type_size).map (· + 1)
  type_cnt := List.replicate rpc_type_size 3
  type_time := List.replicate rpc_type_size 9
  user_id := List.range rpc_user_size
  user_cnt := List.replicate rpc_user_size 4
  user_time := List.replicate rpc_user_size 8

/-! ## Helper lemmas -/

theorem validate_slurm_user_implies_super (c : AuthConfig) (u : Nat)
    (h : validate_slurm_user c u = true) : validate_super_user c u = true := by
  simp only [validate_slurm_user, Bool.or_eq_true] at h
  simp only [validate_super_user, Bool.or_eq_true]
  tauto

theorem validate_super_user_false_slurm_user (c : AuthConfig) (u : Nat)
    (h : validate_super_user c u = false) : validate_slurm_user c u = false := by
  cases hE : validate_slurm_user c u with
  | false => rfl
  | true => rw [validate_slurm_user_implies_super c u hE] at h; cases h

theorem length_scan_type_slot (l : List Nat) (t : Nat) :
    (scan_type_slot l t).1.length = l.length := by
  induction l with
  | nil => rfl
  | cons x xs ih =>
    simp only [scan_type_slot]
    split_ifs <;> simp [ih]

theorem length_scan_user_slot (l : List Nat) (u : Nat) :
    ∀ i, (scan_user_slot l u i).1.length = l.length := by
  induction l with
  | nil => intro i; rfl
  | cons x xs ih =>
    intro i
    simp only [scan_user_slot]
    split_ifs <;> simp [ih]

theorem scan_type_slot_none (l : List Nat) (t : Nat) :
    (scan_type_slot l t).2 = none → (scan_type_slot l t).1 = l := by
  induction l with
  | nil => intro _; rfl
  | cons x xs ih =>
    intro h
    by_cases h1 : x = 0
    · simp [scan_type_slot, h1] at h
    · by_cases h2 : x ≠ t
      · simp only [scan_type_slot, if_neg h1, if_pos h2,
          Option.map_eq_none'] at h
        simp only [scan_type_slot, if_neg h1, if_pos h2]
        simp [ih h]
      · simp [scan_type_slot, h1, h2] at h

theorem scan_user_slot_none (l : List Nat) (u : Nat) :
    ∀ i, (scan_user_slot l u i).2 = none → (scan_user_slot l u i).1 = l := by
  induction l with
  | nil => intro i _; rfl
  | cons x xs ih =>
    intro i h
    by_cases h1 : x = 0 ∧ i ≠ 0
    · simp [scan_user_slot, h1] at h
    · by_cases h2 : x ≠ u
      · simp only [scan_user_slot, if_neg h1, if_pos h2] at h
        simp only [scan_user_slot, if_neg h1, if_pos h2]
        simp [ih (i + 1) h]
      · simp [scan_user_slot, h1, h2] at h

theorem scan_type_slot_index_lt (l : List Nat) (t : Nat) :
    ∀ i, (scan_type_slot l t).2 = some i → i < l.length := by
  induction l with
  | nil => intro i h; cases h
  | cons x xs ih =>
    intro i h
    simp only [scan_type_slot] at h
    split_ifs at h with h1 h2
    · cases h; simp
    · obtain ⟨j, hj, rfl⟩ := Option.map_eq_some'.mp h
      have := ih j hj
      simp only [List.length_cons]
      omega
    · cases h; simp

theorem scan_user_slot_index_ge (l : List Nat) (u : Nat) :
    ∀ i0 j, (scan_user_slot l u i0).2 = some j → i0 ≤ j := by
  induction l with
  | nil => intro i0 j h; cases h
  | cons x xs ih =>
    intro i0 j h
    simp only [scan_user_slot] at h
    split_ifs at h with h1 h2
    · cases h; omega
    · have := ih (i0 + 1) j h
      omega
    · cases h; omega

theorem scan_user_slot_index_lt (l : List Nat) (u : Nat) :
    ∀ i0 j, (scan_user_slot l u i0).2 = some j → j < i0 + l.length := by
  induction l with
  | nil => intro i0 j h; cases h
  | cons x xs ih =>
    intro i0 j h
    simp only [scan_user_slot] at h
    split_ifs at h with h1 h2
    · cases h; simp
    · have := ih (i0 + 1) j h
      simp only [List.length_cons]
      omega
    · cases h; simp

theorem scan_user_slot_cons_zero (xs : List Nat) (u : Nat) :
    scan_user_slot (0 :: xs) u 0 =
      if u = 0 then (0 :: xs, some 0)
      else (0 :: (scan_user_slot xs u 1).1, (scan_user_slot xs u 1).2) := by
  by_cases hu : u = 0
  · subst hu; simp [scan_user_slot]
  · have h0 : (0 : Nat) ≠ u := fun h => hu h.symm
    simp [scan_user_slot, hu, h0]

theorem bump_slot_length (l : List Nat) (i d : Nat) :
    (bump_slot l i d).length = l.length := by
  simp [bump_slot]

theorem bump_slot_getD (l : List Nat) :
    ∀ i d, i < l.length → (bump_slot l i d).getD i 0 = l.getD i 0 + d := by
  induction l with
  | nil => intro i d h; simp at h
  | cons x xs ih =>
    intro i d h
    cases i with
    | zero => simp [bump_slot]
    | succ n =>
      simp only [List.length_cons] at h
      have := ih n d (by omega)
      simpa [bump_slot, List.getD_cons_succ] using this

theorem mem_map_const_zero (l : List Nat) :
    ∀ x ∈ l.map (fun _ => 0), x = 0 := by
  simp

/-! ## Claim theorems -/

/-- C6: for every encodable job state word, the macro-level predicates of
`slurm_protocol_defs.h` agree with the spec-level derived predicates:
Started iff the base state is after Pending, Finished iff after Suspended,
Completed iff Finished with the Completing flag clear; and for every node
state word: Draining iff Drain with base Allocated, Error or Mixed, and
Drained iff Drain and not Draining. -/
theorem c6_derived_predicates_match_spec :
    (∀ (b : JobBase) (completing configuring resizing requeue : Bool),
      IS_JOB_STARTED (encode_job_state b completing configuring resizing requeue) =
          spec_job_started b ∧
        IS_JOB_FINISHED (encode_job_state b completing configuring resizing requeue) =
          spec_job_finished b ∧
        IS_JOB_COMPLETED (encode_job_state b completing configuring resizing requeue) =
          spec_job_completed b completing) ∧
    (∀ (nb : NodeBase)
      (drain completing no_respond power_save fail maint power_up cloud : Bool),
      IS_NODE_DRAINING (encode_node_state nb drain completing no_respond
            power_save fail maint power_up cloud) =
          spec_node_draining nb drain ∧
        IS_NODE_DRAINED (encode_node_state nb drain completing no_respond
            power_save fail maint power_up cloud) =
          spec_node_drained nb drain) := by
  constructor
  · decide
  · decide

/-- C9: the telemetry reset command of the statistics RPC is permitted
only to a super-user caller (indeed only to the slurm user, a subset of
the super-users): any caller that is not a super-user receives
ESLURM_ACCESS_DENIED and the tables are unchanged, a performed reset
implies the caller was a super-user, and a performed reset leaves both
tables with every id, count and time entry zero. -/
theorem c9_stats_reset (c : AuthConfig) (uid : Nat) (st : RpcStats) :
    (validate_super_user c uid = false →
      rpc_dump_stats c uid true st =
        { sent := some (Sent.rc ESLURM_ACCESS_DENIED), stats := st
          performed_reset := false }) ∧
    ((rpc_dump_stats c uid true st).performed_reset = true →
      validate_super_user c uid = true) ∧
    ((rpc_dump_stats c uid true st).performed_reset = true →
      (rpc_dump_stats c uid true st).stats = clear_rpc_stats st) ∧
    ((∀ x ∈ (clear_rpc_stats st).type_id, x = 0) ∧
      (∀ x ∈ (clear_rpc_stats st).type_cnt, x = 0) ∧
      (∀ x ∈ (clear_rpc_stats st).type_time, x = 0) ∧
      (∀ x ∈ (clear_rpc_stats st).user_id, x = 0) ∧
      (∀ x ∈ (clear_rpc_stats st).user_cnt, x = 0) ∧
      (∀ x ∈ (clear_rpc_stats st).user_time, x = 0)) ∧
    ((clear_rpc_stats st).type_id.length = st.type_id.length ∧
      (clear_rpc_stats st).type_cnt.length = st.type_cnt.length ∧
      (clear_rpc_stats st).type_time.length = st.type_time.length ∧
      (clear_rpc_stats st).user_id.length = st.user_id.length ∧
      (clear_rpc_stats st).user_cnt.length = st.user_cnt.length ∧
      (clear_rpc_stats st).user_time.length = st.user_time.length) := by
  refine ⟨?_, ?_, ?_, ?_, ?_⟩
  · intro h
    have hsl : validate_slurm_user c uid = false :=
      validate_super_user_false_slurm_user c uid h
    simp [rpc_dump_stats, hsl]
  · intro hp
    by_cases hE : validate_slurm_user c uid = true
    · exact validate_slurm_user_implies_super c uid hE
    · exfalso
      simp [rpc_dump_stats, hE] at hp
  · intro hp
    by_cases hE : validate_slurm_user c uid = true
    · simp [rpc_dump_stats, hE]
    · exfalso
      simp [rpc_dump_stats, hE] at hp
  · exact ⟨mem_map_const_zero _, mem_map_const_zero _, mem_map_const_zero _,
      mem_map_const_zero _, mem_map_const_zero _, mem_map_const_zero _⟩
  · simp [clear_rpc_stats]

/-- Witness for C9: uid 1000 (no admin level) is denied and the tables
survive untouched; uid 0 is a super-user and its reset clears the
tables. -/
theorem c9_stats_reset_witness :
    rpc_dump_stats example_cfg 1000 true init_rpc_stats =
      { sent := some (Sent.rc ESLURM_ACCESS_DENIED), stats := init_rpc_stats
        performed_reset := false } ∧
    validate_super_user example_cfg 0 = true := by
  refine ⟨(c9_stats_reset example_cfg 1000 init_rpc_stats).1 (by decide),
    (c9_stats_reset example_cfg 0 init_rpc_stats).2.1 rfl⟩

/-- C10 (amended): slot 0 of the per-user telemetry table can only ever
hold uid 0's counters — the slot scan matches slot 0 exactly for uid 0 and
never assigns it to any other uid, and a recorded RPC leaves slot 0's id
zero — but the statistics serializer, whose counting loop starts at index
1 while its arrays are packed from index 0, always emits slot 0 as the
first serialized user entry; uid 0's accumulated counters are therefore
included in (not absent from) the serialized statistics. -/
theorem c10_user_slot_zero (st : RpcStats) (xs ys : List Nat) (y t u d : Nat)
    (hid : st.user_id = 0 :: xs) (hcnt : st.user_cnt = y :: ys) :
    ((scan_user_slot st.user_id u 0).2 = some 0 ↔ u = 0) ∧
    (record_rpc st t u d).user_id.head? = some 0 ∧
    (packed_user_stats st).2.1 = y :: ys.take (leading_nonzero xs) ∧
    (record_rpc st t 0 d).user_cnt.head? = some (y + 1) := by
  have hscan0 : scan_user_slot st.user_id 0 0 = (st.user_id, some 0) := by
    rw [hid, scan_user_slot_cons_zero]
    simp
  refine ⟨?_, ?_, ?_, ?_⟩
  · rw [hid, scan_user_slot_cons_zero]
    by_cases hu : u = 0
    · simp [hu]
    · simp only [if_neg hu]
      constructor
      · intro h
        have := scan_user_slot_index_ge xs u 1 0 h
        omega
      · intro h; exact absurd h hu
  · show (scan_user_slot st.user_id u 0).1.head? = some 0
    rw [hid, scan_user_slot_cons_zero]
    by_cases hu : u = 0 <;> simp [hu]
  · show pack_array st.user_cnt (pack_user_count st) = _
    rw [pack_array, pack_user_count, hid, hcnt]
    rw [List.drop_one, List.tail_cons, Nat.add_comm, List.take_succ_cons]
  · show (match (scan_user_slot st.user_id 0 0).2 with
      | some i => bump_slot st.user_cnt i 1
      | none => st.user_cnt).head? = some (y + 1)
    rw [hscan0, hcnt]
    simp [bump_slot]

/-- Witness for C10: starting from the zeroed tables, one RPC from uid 0
matches slot 0, and the packed user statistics consist of exactly that
slot. -/
theorem c10_user_slot_zero_witness :
    ((scan_user_slot init_rpc_stats.user_id 42 0).2 = some 0 ↔ (42 : Nat) = 0) ∧
    (record_rpc init_rpc_stats 1008 42 7).user_id.head? = some 0 := by
  have h := c10_user_slot_zero init_rpc_stats (List.replicate 199 0)
    (List.replicate 199 0) 0 1008 42 7 rfl rfl
  exact ⟨h.1, h.2.1⟩

/-- Counterexample for C10: after a single RPC from uid 0 (latency 7),
the serializer packs uid 0's slot — id 0, count 1, time 7 — as the first
(and only) user entry, so uid 0's counters do appear in the serialized
statistics response, contrary to the claim. -/
theorem c10_root_counters_are_serialized :
    (scan_user_slot init_rpc_stats.user_id 0 0).2 = some 0 ∧
    packed_user_stats (record_rpc init_rpc_stats 1008 0 7) =
      ([0], [1], [7]) := by
  exact ⟨rfl, rfl⟩

/-- C8 (amended): the telemetry consists of two bounded tables, by
request type with capacity 100 and by caller uid with capacity 200; a
dispatched RPC whose scan finds a slot increments that slot's count by
one and adds its latency to the slot's cumulative time; when a scan finds
no slot (table full with no matching id) the sample is dropped silently —
that table's id, count and time arrays are all left exactly as they
were — and no "other" counter exists to receive it. -/
theorem c8_rpc_telemetry (st : RpcStats) (t u d : Nat) (hw : stats_wf st) :
    stats_wf init_rpc_stats ∧
    rpc_type_size = 100 ∧ rpc_user_size = 200 ∧
    stats_wf (record_rpc st t u d) ∧
    (∀ i, (scan_type_slot st.type_id t).2 = some i →
      (record_rpc st t u d).type_cnt.getD i 0 = st.type_cnt.getD i 0 + 1 ∧
      (record_rpc st t u d).type_time.getD i 0 = st.type_time.getD i 0 + d) ∧
    (∀ i, (scan_user_slot st.user_id u 0).2 = some i →
      (record_rpc st t u d).user_cnt.getD i 0 = st.user_cnt.getD i 0 + 1 ∧
      (record_rpc st t u d).user_time.getD i 0 = st.user_time.getD i 0 + d) ∧
    ((scan_type_slot st.type_id t).2 = none →
      (record_rpc st t u d).type_id = st.type_id ∧
      (record_rpc st t u d).type_cnt = st.type_cnt ∧
      (record_rpc st t u d).type_time = st.type_time) ∧
    ((scan_user_slot st.user_id u 0).2 = none →
      (record_rpc st t u d).user_id = st.user_id ∧
      (record_rpc st t u d).user_cnt = st.user_cnt ∧
      (record_rpc st t u d).user_time = st.user_time) := by
  obtain ⟨w1, w2, w3, w4, w5, w6⟩ := hw
  refine ⟨?_, rfl, rfl, ?_, ?_, ?_, ?_, ?_⟩
  · refine ⟨?_, ?_, ?_, ?_, ?_, ?_⟩ <;> simp [init_rpc_stats]
  · refine ⟨?_, ?_, ?_, ?_, ?_, ?_⟩
    · simpa [record_rpc, length_scan_type_slot] using w1
    · show (match (scan_type_slot st.type_id t).2 with
        | some i => bump_slot st.type_cnt i 1
        | none => st.type_cnt).length = rpc_type_size
      cases (scan_type_slot st.type_id t).2 <;> simp [bump_slot_length, w2]
    · show (match (scan_type_slot st.type_id t).2 with
        | some i => bump_slot st.type_time i d
        | none => st.type_time).length = rpc_type_size
      cases (scan_type_slot st.type_id t).2 <;> simp [bump_slot_length, w3]
    · simpa [record_rpc, length_scan_user_slot] using w4
    · show (match (scan_user_slot st.user_id u 0).2 with
        | some i => bump_slot st.user_cnt i 1
        | none => st.user_cnt).length = rpc_user_size
      cases (scan_user_slot st.user_id u 0).2 <;> simp [bump_slot_length, w5]
    · show (match (scan_user_slot st.user_id u 0).2 with
        | some i => bump_slot st.user_time i d
        | none => st.user_time).length = rpc_user_size
      cases (scan_user_slot st.user_id u 0).2 <;> simp [bump_slot_length, w6]
  · intro i hi
    have hlt : i < st.type_id.length := scan_type_slot_index_lt _ t i hi
    constructor
    · show (match (scan_type_slot st.type_id t).2 with
        | some i => bump_slot st.type_cnt i 1
        | none => st.type_cnt).getD i 0 = _
      rw [hi]
      exact bump_slot_getD st.type_cnt i 1 (by omega)
    · show (match (scan_type_slot st.type_id t).2 with
        | some i => bump_slot st.type_time i d
        | none => st.type_time).getD i 0 = _
      rw [hi]
      exact bump_slot_getD st.type_time i d (by omega)
  · intro i hi
    have hlt : i < 0 + st.user_id.length :=
      scan_user_slot_index_lt _ u 0 i hi
    constructor
    · show (match (scan_user_slot st.user_id u 0).2 with
        | some i => bump_slot st.user_cnt i 1
        | none => st.user_cnt).getD i 0 = _
      rw [hi]
      exact bump_slot_getD st.user_cnt i 1 (by omega)
    · show (match (scan_user_slot st.user_id u 0).2 with
        | some i => bump_slot st.user_time i d
        | none => st.user_time).getD i 0 = _
      rw [hi]
      exact bump_slot_getD st.user_time i d (by omega)
  · intro hn
    refine ⟨?_, ?_, ?_⟩
    · show (scan_type_slot st.type_id t).1 = st.type_id
      exact scan_type_slot_none _ t hn
    · show (match (scan_type_slot st.type_id t).2 with
        | some i => bump_slot st.type_cnt i 1
        | none => st.type_cnt) = st.type_cnt
      rw [hn]
    · show (match (scan_type_slot st.type_id t).2 with
        | some i => bump_slot st.type_time i d
        | none => st.type_time) = st.type_time
      rw [hn]
  · intro hn
    refine ⟨?_, ?_, ?_⟩
    · show (scan_user_slot st.user_id u 0).1 = st.user_id
      exact scan_user_slot_none _ u 0 hn
    · show (match (scan_user_slot st.user_id u 0).2 with
        | some i => bump_slot st.user_cnt i 1
        | none => st.user_cnt) = st.user_cnt
      rw [hn]
    · show (match (scan_user_slot st.user_id u 0).2 with
        | some i => bump_slot st.user_time i d
        | none => st.user_time) = st.user_time
      rw [hn]

/-- Witness for C8: on the zeroed tables, type 1001 claims type slot 0
and uid 42 claims user slot 1, and each counter is incremented with the
latency 5 added. -/
theorem c8_rpc_telemetry_witness :
    (record_rpc init_rpc_stats 1001 42 5).type_cnt.getD 0 0 =
      init_rpc_stats.type_cnt.getD 0 0 + 1 ∧
    (record_rpc init_rpc_stats 1001 42 5).user_time.getD 1 0 =
      init_rpc_stats.user_time.getD 1 0 + 5 := by
  have h := c8_rpc_telemetry init_rpc_stats 1001 42 5
    (by refine ⟨?_, ?_, ?_, ?_, ?_, ?_⟩ <;> simp [init_rpc_stats])
  exact ⟨(h.2.2.2.2.1 0 rfl).1, (h.2.2.2.2.2.1 1 rfl).2⟩

set_option maxRecDepth 8000 in
/-- Counterexample for C8: with both tables saturated by other ids, an
RPC of type 777 from uid 777 matches no slot in either table and the
entire telemetry state is left untouched — the dropped sample is not
counted anywhere, in particular not as "other". -/
theorem c8_saturated_sample_dropped_silently :
    (scan_type_slot full_stats.type_id 777).2 = none ∧
    (scan_user_slot full_stats.user_id 777 0).2 = none ∧
    record_rpc full_stats 777 777 5 = full_stats := by
  exact ⟨by decide, by decide, by decide⟩

/-- C1: for a batch submit or allocate request whose allocation attempt
fails with one of the transient capacity errors NodeNotAvail,
PartConfigUnavailable, QosThreshold or JobHeld (the placement being
infeasible for reason `e`): a non-immediate request is answered with the
handler's success payload carrying the new job's id and the error code as
the attached reason, and the job stays Pending with that reason; an
immediate request is answered with the failure code
ESLURM_CAN_NOT_START_IMMEDIATELY and no job is kept.  Shown here at a
benign request (uid 1000 submitting for itself, job id 77 issued). -/
theorem c1_transient_errors_submit_allocate (e : Nat)
    (he : e = ESLURM_NODE_NOT_AVAIL ∨
      e = ESLURM_REQUESTED_PART_CONFIG_UNAVAILABLE ∨
      e = ESLURM_QOS_THRES ∨ e = ESLURM_JOB_HELD) :
    rpc_submit_batch_job std_build example_cfg 1000 1000 true SLURM_SUCCESS
        none none SLURM_SUCCESS false (SelectionResult.infeasible e) 77 =
      { sent := some (Sent.payload RESPONSE_SUBMIT_BATCH_JOB e)
        created := some ⟨77, JobBase.pending, e⟩, step_launched := false } ∧
    rpc_submit_batch_job std_build example_cfg 1000 1000 true SLURM_SUCCESS
        none none SLURM_SUCCESS true (SelectionResult.infeasible e) 77 =
      { sent := some (Sent.rc ESLURM_CAN_NOT_START_IMMEDIATELY)
        created := none, step_launched := false } ∧
    rpc_allocate_resources std_build example_cfg 1000 1000 true SLURM_SUCCESS
        false true 0 false (SelectionResult.infeasible e) 77 =
      { sent := some (Sent.payload RESPONSE_RESOURCE_ALLOCATION e)
        created := some ⟨77, JobBase.pending, e⟩ } ∧
    rpc_allocate_resources std_build example_cfg 1000 1000 true SLURM_SUCCESS
        false true 0 true (SelectionResult.infeasible e) 77 =
      { sent := some (Sent.rc ESLURM_CAN_NOT_START_IMMEDIATELY)
        created := none } := by
  rcases he with h | h | h | h <;> subst h <;> exact ⟨by decide, by decide,
    by decide, by decide⟩

/-- Witness for C1 at the concrete transient error NodeNotAvail. -/
theorem c1_transient_errors_witness :
    rpc_submit_batch_job std_build example_cfg 1000 1000 true SLURM_SUCCESS
        none none SLURM_SUCCESS false
        (SelectionResult.infeasible ESLURM_NODE_NOT_AVAIL) 77 =
      { sent := some (Sent.payload RESPONSE_SUBMIT_BATCH_JOB
          ESLURM_NODE_NOT_AVAIL)
        created := some ⟨77, JobBase.pending, ESLURM_NODE_NOT_AVAIL⟩
        step_launched := false } := by
  exact (c1_transient_errors_submit_allocate ESLURM_NODE_NOT_AVAIL
    (Or.inl rfl)).1

/-- C7 (amended): a batch submit naming an explicit job id behaves, when
a record with that id exists, in one of three ways: an unfinished record
is an active allocation and the submission addresses it by launching a
batch step (creating no job); a finished record that is still Completing
is rejected with ESLURM_DUPLICATE_JOB_ID; a finished record that is no
longer Completing is deliberately dropped ("OK to re-use job id") and the
submission creates a fresh job under the same id through the allocation
path. -/
theorem c7_explicit_job_id_reuse :
    rpc_submit_batch_job std_build example_cfg 1000 1000 true SLURM_SUCCESS
        (some 42) (some ⟨1000, false, false, false⟩) SLURM_SUCCESS false
        SelectionResult.placed 77 =
      { sent := some (Sent.payload RESPONSE_SUBMIT_BATCH_JOB SLURM_SUCCESS)
        created := none, step_launched := true } ∧
    rpc_submit_batch_job std_build example_cfg 1000 1000 true SLURM_SUCCESS
        (some 42) (some ⟨1000, true, true, false⟩) SLURM_SUCCESS false
        SelectionResult.placed 77 =
      { sent := some (Sent.rc ESLURM_DUPLICATE_JOB_ID)
        created := none, step_launched := false } ∧
    rpc_submit_batch_job std_build example_cfg 1000 1000 true SLURM_SUCCESS
        (some 42) (some ⟨1000, true, false, false⟩) SLURM_SUCCESS false
        SelectionResult.placed 77 =
      { sent := some (Sent.payload RESPONSE_SUBMIT_BATCH_JOB SLURM_SUCCESS)
        created := some ⟨42, JobBase.running, 0⟩, step_launched := false } := by
  exact ⟨by decide, by decide, by decide⟩

/-- Counterexample for C7: with a finished, no-longer-Completing record
under id 42 still present in the store, a submission naming id 42 is
neither turned into a step of an existing allocation nor rejected with
DuplicateJobId — it creates a new job under id 42. -/
theorem c7_finished_record_id_reused :
    (rpc_submit_batch_job std_build example_cfg 1000 1000 true SLURM_SUCCESS
        (some 42) (some ⟨1000, true, false, false⟩) SLURM_SUCCESS false
        SelectionResult.placed 77).created = some ⟨42, JobBase.running, 0⟩ ∧
    (rpc_submit_batch_job std_build example_cfg 1000 1000 true SLURM_SUCCESS
        (some 42) (some ⟨1000, true, false, false⟩) SLURM_SUCCESS false
        SelectionResult.placed 77).step_launched = false ∧
    (rpc_submit_batch_job std_build example_cfg 1000 1000 true SLURM_SUCCESS
        (some 42) (some ⟨1000, true, false, false⟩) SLURM_SUCCESS false
        SelectionResult.placed 77).sent ≠
      some (Sent.rc ESLURM_DUPLICATE_JOB_ID) := by
  exact ⟨by decide, by decide, by decide⟩

/-- C2: classification of the slurmd return code by the batch-complete
handler (shown on the ALPS build, the configuration whose behavior the
spec describes, for an authorized report from the right node about a job
whose details carry the requeue permission `req`): the transient codes
AlreadyDone and CredentialRevoked are rewritten to success with no drain
and no requeue; the transient code ReservationNotUsable drains nothing
and requests one more run (requeue); the five communication/identity
codes are logged only — no drain, no requeue; every other nonzero code
drains the reporting node with reason "batch job complete failure", and
then the job is requeued exactly when the script's own return code is
nonzero and the job's details permit requeue. -/
theorem c2_batch_complete_classification (req : Bool) (jrc jcrc rc : Nat) :
    (rc = ESLURM_ALREADY_DONE ∨ rc = ESLURMD_CREDENTIAL_REVOKED →
      (rpc_complete_batch_script alps_build example_cfg 0 false
          (some ⟨true, req⟩) rc jrc jcrc).treated_slurm_rc = SLURM_SUCCESS ∧
      (rpc_complete_batch_script alps_build example_cfg 0 false
          (some ⟨true, req⟩) rc jrc jcrc).drained_node = false ∧
      (rpc_complete_batch_script alps_build example_cfg 0 false
          (some ⟨true, req⟩) rc jrc jcrc).drained_front_end = false ∧
      (rpc_complete_batch_script alps_build example_cfg 0 false
          (some ⟨true, req⟩) rc jrc jcrc).job_requeue = false) ∧
    ((rpc_complete_batch_script alps_build example_cfg 0 false
        (some ⟨true, req⟩) ESLURM_RESERVATION_NOT_USABLE jrc
        jcrc).drained_node = false ∧
      (rpc_complete_batch_script alps_build example_cfg 0 false
        (some ⟨true, req⟩) ESLURM_RESERVATION_NOT_USABLE jrc
        jcrc).drained_front_end = false ∧
      (rpc_complete_batch_script alps_build example_cfg 0 false
        (some ⟨true, req⟩) ESLURM_RESERVATION_NOT_USABLE jrc
        jcrc).job_requeue = true) ∧
    (rc = SLURM_COMMUNICATIONS_SEND_ERROR ∨ rc = ESLURM_USER_ID_MISSING ∨
      rc = ESLURMD_UID_NOT_FOUND ∨ rc = ESLURMD_GID_NOT_FOUND ∨
      rc = ESLURMD_INVALID_ACCT_FREQ →
      (rpc_complete_batch_script alps_build example_cfg 0 false
          (some ⟨true, req⟩) rc jrc jcrc).drained_node = false ∧
      (rpc_complete_batch_script alps_build example_cfg 0 false
          (some ⟨true, req⟩) rc jrc jcrc).drained_front_end = false ∧
      (rpc_complete_batch_script alps_build example_cfg 0 false
          (some ⟨true, req⟩) rc jrc jcrc).job_requeue = false) ∧
    (rc ≠ SLURM_SUCCESS → rc ≠ ESLURM_ALREADY_DONE →
      rc ≠ ESLURMD_CREDENTIAL_REVOKED → rc ≠ ESLURM_RESERVATION_NOT_USABLE →
      rc ≠ SLURM_COMMUNICATIONS_SEND_ERROR → rc ≠ ESLURM_USER_ID_MISSING →
      rc ≠ ESLURMD_UID_NOT_FOUND → rc ≠ ESLURMD_GID_NOT_FOUND →
      rc ≠ ESLURMD_INVALID_ACCT_FREQ →
      (rpc_complete_batch_script alps_build example_cfg 0 false
          (some ⟨true, req⟩) rc jrc jcrc).drained_node = true ∧
      (rpc_complete_batch_script alps_build example_cfg 0 false
          (some ⟨true, req⟩) rc jrc jcrc).drain_reason =
        some "batch job complete failure" ∧
      (rpc_complete_batch_script alps_build example_cfg 0 false
          (some ⟨true, req⟩) rc jrc jcrc).job_requeue =
        (decide (jrc ≠ SLURM_SUCCESS) && req)) := by
  refine ⟨?_, ?_, ?_, ?_⟩
  · intro h
    rcases h with h | h <;> subst h <;> exact ⟨rfl, rfl, rfl, rfl⟩
  · exact ⟨rfl, rfl, rfl⟩
  · intro h
    rcases h with h | h | h | h | h <;> subst h <;> exact ⟨rfl, rfl, rfl⟩
  · intro h0 h1 h2 h3 h4 h5 h6 h7 h8
    have nA : ¬(rc = ESLURM_ALREADY_DONE ∨ rc = ESLURMD_CREDENTIAL_REVOKED) := by
      rintro (h | h)
      · exact h1 h
      · exact h2 h
    have nB : ¬(alps_build.alps_cray = true ∧
        rc = ESLURM_RESERVATION_NOT_USABLE) := fun hh => h3 hh.2
    have nC : ¬(rc = SLURM_COMMUNICATIONS_SEND_ERROR ∨
        rc = ESLURM_USER_ID_MISSING ∨ rc = ESLURMD_UID_NOT_FOUND ∨
        rc = ESLURMD_GID_NOT_FOUND ∨ rc = ESLURMD_INVALID_ACCT_FREQ) := by
      rintro (h | h | h | h | h)
      · exact h4 h
      · exact h5 h
      · exact h6 h
      · exact h7 h
      · exact h8 h
    simp only [rpc_complete_batch_script, if_neg nA, if_neg nB, if_neg nC,
      if_pos h0, batch_complete_finish]
    simp [alps_build, example_cfg, validate_slurm_user]

/-- Witness for C2: the concrete transient code AlreadyDone is rewritten
to success with no drain, and the unclassified concrete code 9999 drains
the reporting node with the script failure (job_rc 1) of a
requeue-permitted job requesting a requeue. -/
theorem c2_batch_complete_witness :
    (rpc_complete_batch_script alps_build example_cfg 0 false
        (some ⟨true, true⟩) ESLURM_ALREADY_DONE 1 0).treated_slurm_rc =
      SLURM_SUCCESS ∧
    (rpc_complete_batch_script alps_build example_cfg 0 false
        (some ⟨true, true⟩) 9999 1 0).drained_node = true ∧
    (rpc_complete_batch_script alps_build example_cfg 0 false
        (some ⟨true, true⟩) 9999 1 0).job_requeue = true := by
  have hA := (c2_batch_complete_classification true 1 0 ESLURM_ALREADY_DONE).1
    (Or.inl rfl)
  have hD := (c2_batch_complete_classification true 1 0 9999).2.2.2
    (by decide) (by decide) (by decide) (by decide) (by decide) (by decide)
    (by decide) (by decide) (by decide)
  exact ⟨hA.1, hD.1, by rw [hD.2.2]; decide⟩

/-- C3 (amended): of the node-origin RPCs, node registration, epilog
complete and batch complete verify the slurm-user identity and, for any
other caller, perform no state change (registration answers
ESLURM_USER_ID_MISSING, the two completion handlers return silently);
ping, however, performs no identity check at all — it answers success to
every caller (and performs no state change for anyone).  Step complete
delegates its identity check to `step_partial_comp`, outside this
subset. -/
theorem c3_node_origin_identity (c : AuthConfig) (uid vrc : Nat)
    (bc : BuildConfig) (wn : Bool) (job : Option BatchJobView)
    (src jrc jcrc : Nat) :
    (validate_slurm_user c uid = false →
      rpc_node_registration c uid vrc =
        { sent := some (Sent.rc ESLURM_USER_ID_MISSING)
          called_validate_node := false } ∧
      rpc_epilog_complete c uid =
        { sent := none, called_job_epilog_complete := false } ∧
      rpc_complete_batch_script bc c uid wn job src jrc jcrc =
        { sent := none, treated_slurm_rc := src, drained_node := false
          drained_front_end := false, drain_reason := none
          job_requeue := false, called_job_complete := false }) ∧
    (∀ u, rpc_ping u = { sent := some (Sent.rc SLURM_SUCCESS) }) := by
  constructor
  · intro h
    refine ⟨?_, ?_, ?_⟩
    · simp [rpc_node_registration, h]
    · simp [rpc_epilog_complete, h]
    · simp [rpc_complete_batch_script, h]
  · intro u
    rfl

/-- Witness for C3 at uid 1000 under the sample environment: not the
slurm user, so registration is refused without running validation and the
completion handlers return inert, while ping still answers success. -/
theorem c3_node_origin_identity_witness :
    rpc_epilog_complete example_cfg 1000 =
      { sent := none, called_job_epilog_complete := false } ∧
    rpc_node_registration example_cfg 1000 0 =
      { sent := some (Sent.rc ESLURM_USER_ID_MISSING)
        called_validate_node := false } ∧
    rpc_ping 1000 = { sent := some (Sent.rc SLURM_SUCCESS) } := by
  have h := c3_node_origin_identity example_cfg 1000 0 std_build false none
    0 0 0
  exact ⟨(h.1 (by decide)).2.1, (h.1 (by decide)).1, h.2 1000⟩

/-- Counterexample for C3: uid 1000 is not the slurm-user identity, yet
its ping RPC is executed — the handler runs and replies success — so ping
is not "executed only when the caller's authenticated uid is the
slurm-user identity". -/
theorem c3_ping_skips_identity_check :
    validate_slurm_user example_cfg 1000 = false ∧
    rpc_ping 1000 = { sent := some (Sent.rc SLURM_SUCCESS) } := by
  exact ⟨by decide, rfl⟩

/-- C4 (amended): the administrative RPCs reconfigure, shutdown
(including the immediate variant, which never replies at all), node
update, and partition create/update/delete succeed only for a super-user
— any other caller gets ESLURM_USER_ID_MISSING (or, for the immediate
shutdown, silence) and no state change; the reservation
create/update/delete RPCs, however, are gated by the weaker operator
level: a non-operator is refused the same way, but any operator — not
only a super-user — may mutate reservations. -/
theorem c4_admin_rpc_authorization (c : AuthConfig)
    (uid r1 r2 r3 r4 r5 r6 r7 : Nat) (ip sd : Bool) :
    (validate_super_user c uid = false →
      rpc_reconfigure_controller c uid false false r1 =
        { sent := some (Sent.rc ESLURM_USER_ID_MISSING), executed := false } ∧
      (rpc_reconfigure_controller c uid ip sd r1).executed = false ∧
      rpc_shutdown_controller c uid =
        { sent := some (Sent.rc ESLURM_USER_ID_MISSING), executed := false } ∧
      rpc_shutdown_controller_immediate c uid =
        { sent := none, executed := false } ∧
      rpc_update_node c uid r2 =
        { sent := some (Sent.rc ESLURM_USER_ID_MISSING), executed := false } ∧
      rpc_update_partition c uid r3 =
        { sent := some (Sent.rc ESLURM_USER_ID_MISSING), executed := false } ∧
      rpc_delete_partition c uid r4 =
        { sent := some (Sent.rc ESLURM_USER_ID_MISSING), executed := false }) ∧
    (validate_operator c uid = false →
      rpc_resv_create c uid r5 =
        { sent := some (Sent.rc ESLURM_USER_ID_MISSING), executed := false } ∧
      rpc_resv_update c uid r6 =
        { sent := some (Sent.rc ESLURM_USER_ID_MISSING), executed := false } ∧
      rpc_resv_delete c uid r7 =
        { sent := some (Sent.rc ESLURM_USER_ID_MISSING), executed := false }) := by
  constructor
  · intro h
    refine ⟨?_, ?_, ?_, ?_, ?_, ?_, ?_⟩
    · simp [rpc_reconfigure_controller, h, ESLURM_USER_ID_MISSING,
        SLURM_SUCCESS]
    · cases ip <;> cases sd <;>
        simp [rpc_reconfigure_controller, h, ESLURM_USER_ID_MISSING,
          SLURM_SUCCESS, EINPROGRESS]
    · simp [rpc_shutdown_controller, h]
    · simp [rpc_shutdown_controller_immediate, h]
    · simp [rpc_update_node, h]
    · simp [rpc_update_partition, h]
    · simp [rpc_delete_partition, h]
  · intro h
    refine ⟨?_, ?_, ?_⟩
    · simp [rpc_resv_create, h]
    · simp [rpc_resv_update, h]
    · simp [rpc_resv_delete, h]

/-- Witness for C4 at uid 1000 (plain user) under the sample
environment. -/
theorem c4_admin_rpc_authorization_witness :
    rpc_update_node example_cfg 1000 0 =
      { sent := some (Sent.rc ESLURM_USER_ID_MISSING), executed := false } ∧
    rpc_resv_create example_cfg 1000 0 =
      { sent := some (Sent.rc ESLURM_USER_ID_MISSING), executed := false } := by
  have h := c4_admin_rpc_authorization example_cfg 1000 0 0 0 0 0 0 0
    false false
  exact ⟨(h.1 (by decide)).2.2.2.2.1, (h.2 (by decide)).1⟩

/-- Counterexample for C4: uid 500 holds only the Operator admin level —
it is not a super-user — yet its reservation create/update/delete RPCs
execute the mutation and succeed instead of returning an authorization
error. -/
theorem c4_operator_may_mutate_reservations :
    validate_super_user example_cfg 500 = false ∧
    rpc_resv_create example_cfg 500 SLURM_SUCCESS =
      { sent := some (Sent.payload RESPONSE_CREATE_RESERVATION 0)
        executed := true } ∧
    rpc_resv_update example_cfg 500 SLURM_SUCCESS =
      { sent := some (Sent.rc SLURM_SUCCESS), executed := true } ∧
    rpc_resv_delete example_cfg 500 SLURM_SUCCESS =
      { sent := some (Sent.rc SLURM_SUCCESS), executed := true } := by
  exact ⟨by decide, by decide, by decide, by decide⟩

theorem allocate_reply_sent_isSome (imm : Bool) (rc : Nat)
    (job : Option CreatedJob) : (allocate_reply imm rc job).sent.isSome = true := by
  unfold allocate_reply
  split <;> rfl

theorem submit_create_new_sent_isSome (eid : Option Nat) (imm : Bool)
    (sel : SelectionResult) (nid : Nat) :
    (submit_create_new eid imm sel nid).sent.isSome = true := by
  simp only [submit_create_new]
  split_ifs <;> rfl

theorem rpc_allocate_resources_sent_isSome (bc : BuildConfig)
    (c : AuthConfig) (uid duid : Nat) (anok : Bool) (vrc : Nat)
    (siu pok : Bool) (ev : Nat) (imm : Bool) (sel : SelectionResult)
    (nid : Nat) :
    (rpc_allocate_resources bc c uid duid anok vrc siu pok ev imm sel
      nid).sent.isSome = true := by
  simp only [rpc_allocate_resources]
  split_ifs <;> apply allocate_reply_sent_isSome

theorem rpc_submit_batch_job_sent_isSome (bc : BuildConfig)
    (c : AuthConfig) (uid duid : Nat) (anok : Bool) (vrc : Nat)
    (eid : Option Nat) (ex : Option ExistingJob) (lrc : Nat) (imm : Bool)
    (sel : SelectionResult) (nid : Nat) :
    (rpc_submit_batch_job bc c uid duid anok vrc eid ex lrc imm sel
      nid).sent.isSome = true := by
  cases eid <;> cases ex <;>
    (simp only [rpc_submit_batch_job]
     split_ifs <;> first | rfl | apply submit_create_new_sent_isSome)

theorem batch_complete_sent_isSome (bc : BuildConfig) (c : AuthConfig)
    (uid : Nat) (wn : Bool) (job : Option BatchJobView) (src jrc jcrc : Nat)
    (h : validate_slurm_user c uid = true) :
    (rpc_complete_batch_script bc c uid wn job src jrc
      jcrc).sent.isSome = true := by
  have hn : ¬¬(validate_slurm_user c uid = true) := by simp [h]
  simp only [rpc_complete_batch_script, if_neg hn]
  split_ifs <;> rfl

theorem rpc_step_complete_sent_isSome (prc rem : Nat) (bs : Bool)
    (frc : Nat) : (rpc_step_complete prc rem bs frc).sent.isSome = true := by
  unfold rpc_step_complete
  split_ifs <;> rfl

theorem rpc_node_registration_sent_isSome (c : AuthConfig) (uid vrc : Nat) :
    (rpc_node_registration c uid vrc).sent.isSome = true := by
  unfold rpc_node_registration
  split_ifs <;> rfl

theorem rpc_dump_stats_sent_isSome (c : AuthConfig) (uid : Nat)
    (reset : Bool) (st : RpcStats) :
    (rpc_dump_stats c uid reset st).sent.isSome = true := by
  unfold rpc_dump_stats
  split_ifs <;> rfl

theorem gated_sent_isSome (c : AuthConfig) (uid r : Nat) :
    (rpc_update_node c uid r).sent.isSome = true ∧
    (rpc_update_partition c uid r).sent.isSome = true ∧
    (rpc_delete_partition c uid r).sent.isSome = true ∧
    (rpc_resv_create c uid r).sent.isSome = true ∧
    (rpc_resv_update c uid r).sent.isSome = true ∧
    (rpc_resv_delete c uid r).sent.isSome = true ∧
    (rpc_shutdown_controller c uid).sent.isSome = true := by
  refine ⟨?_, ?_, ?_, ?_, ?_, ?_, ?_⟩ <;>
    first
    | (unfold rpc_update_node; split_ifs <;> rfl)
    | (unfold rpc_update_partition; split_ifs <;> rfl)
    | (unfold rpc_delete_partition; split_ifs <;> rfl)
    | (unfold rpc_resv_create; split_ifs <;> rfl)
    | (unfold rpc_resv_update; split_ifs <;> rfl)
    | (unfold rpc_resv_delete; split_ifs <;> rfl)
    | (unfold rpc_shutdown_controller; split_ifs <;> rfl)

theorem rpc_reconfigure_sent_isSome (c : AuthConfig) (uid : Nat)
    (ip sd : Bool) (r : Nat) :
    (rpc_reconfigure_controller c uid ip sd r).sent.isSome = true := by
  simp only [rpc_reconfigure_controller]
  split_ifs <;> rfl

/-- C5 (amended): every embedded RPC handler answers each request with
either its declared success payload or a return-code message — and the
dispatcher answers an unknown message type with EINVAL — with these
exceptions, visible in the source: the epilog-complete handler never
sends any response ("RPC has no response"), the immediate-shutdown
handler never sends any response, and the batch-complete handler returns
silently when the caller is not the slurm user. -/
theorem c5_every_rpc_answered (bc : BuildConfig) (c : AuthConfig)
    (uid duid : Nat) (anok : Bool) (vrc : Nat) (siu pok : Bool) (ev : Nat)
    (imm : Bool) (sel : SelectionResult) (nid : Nat) (eid : Option Nat)
    (ex : Option ExistingJob) (lrc : Nat) (job : Option BatchJobView)
    (wn reset : Bool) (src jrc jcrc prc rem frc r : Nat) (bs : Bool)
    (st : RpcStats) (ip sd : Bool) :
    (rpc_ping uid).sent.isSome = true ∧
    (rpc_node_registration c uid vrc).sent.isSome = true ∧
    (rpc_allocate_resources bc c uid duid anok vrc siu pok ev imm sel
      nid).sent.isSome = true ∧
    (rpc_submit_batch_job bc c uid duid anok vrc eid ex lrc imm sel
      nid).sent.isSome = true ∧
    (rpc_step_complete prc rem bs frc).sent.isSome = true ∧
    (rpc_dump_stats c uid reset st).sent.isSome = true ∧
    (rpc_reconfigure_controller c uid ip sd r).sent.isSome = true ∧
    (rpc_shutdown_controller c uid).sent.isSome = true ∧
    (rpc_update_node c uid r).sent.isSome = true ∧
    (rpc_update_partition c uid r).sent.isSome = true ∧
    (rpc_delete_partition c uid r).sent.isSome = true ∧
    (rpc_resv_create c uid r).sent.isSome = true ∧
    (rpc_resv_update c uid r).sent.isSome = true ∧
    (rpc_resv_delete c uid r).sent.isSome = true ∧
    dispatcher_unknown_reply = some (Sent.rc EINVAL) ∧
    (validate_slurm_user c uid = true →
      (rpc_complete_batch_script bc c uid wn job src jrc
        jcrc).sent.isSome = true) ∧
    (rpc_epilog_complete c uid).sent = none ∧
    (rpc_shutdown_controller_immediate c uid).sent = none ∧
    (validate_slurm_user c uid = false →
      (rpc_complete_batch_script bc c uid wn job src jrc jcrc).sent =
        none) := by
  have hg := gated_sent_isSome c uid r
  refine ⟨rfl, rpc_node_registration_sent_isSome c uid vrc,
    rpc_allocate_resources_sent_isSome bc c uid duid anok vrc siu pok ev
      imm sel nid,
    rpc_submit_batch_job_sent_isSome bc c uid duid anok vrc eid ex lrc
      imm sel nid,
    rpc_step_complete_sent_isSome prc rem bs frc,
    rpc_dump_stats_sent_isSome c uid reset st,
    rpc_reconfigure_sent_isSome c uid ip sd r,
    hg.2.2.2.2.2.2, hg.1, hg.2.1, hg.2.2.1, hg.2.2.2.1, hg.2.2.2.2.1,
    hg.2.2.2.2.2.1, rfl,
    batch_complete_sent_isSome bc c uid wn job src jrc jcrc, ?_, ?_, ?_⟩
  · unfold rpc_epilog_complete
    split_ifs <;> rfl
  · unfold rpc_shutdown_controller_immediate
    split_ifs <;> rfl
  · intro h
    simp [rpc_complete_batch_script, h]

/-- Witness for C5: the batch-complete clause instantiated for the
authorized caller uid 0. -/
theorem c5_every_rpc_answered_witness :
    (rpc_complete_batch_script std_build example_cfg 0 false none 0 0
      0).sent.isSome = true := by
  exact (c5_every_rpc_answered std_build example_cfg 0 0 true 0 false
    false 0 false SelectionResult.placed 0 none none 0 none false false
    0 0 0 0 0 0 0 false init_rpc_stats false
    false).2.2.2.2.2.2.2.2.2.2.2.2.2.2.2.1 rfl

/-- Counterexample for C5: an authorized epilog-complete RPC is fully
processed (`job_epilog_complete` runs) yet no response of any kind is
sent to the caller — the RPC completes without any response. -/
theorem c5_epilog_complete_sends_nothing :
    (rpc_epilog_complete example_cfg 0).called_job_epilog_complete = true ∧
    (rpc_epilog_complete example_cfg 0).sent = none := by
  exact ⟨rfl, rfl⟩

end OStrich
